import Mathlib

/-!
Verification of the `view` dual-pane live-output viewer (`src/main.rs`)
against its natural-language specification.

The development shallowly embeds the parts of the program the claims are
about:

* the tail-selection arithmetic of the draw closure in `update`
  (`skip(amount.saturating_sub(height + 2)).take(height)`);
* the per-pane shared state `State` and the line appends performed by the
  reader threads;
* the control flow of `update`'s main loop (`Event::Draw` / `Event::Exit` /
  `Err(_)` arms) and the join section after the loop;
* the control flow of `main` around `update` (terminal restore, error
  printing, exit code);
* the reader threads' session structure (the left thread runs one reader
  session; the right thread's closure body is `loop { ... }`);
* the lock/append/send/release ordering of one reader loop iteration.

Machine integers (`usize`, `u16`) are modelled as `Nat`; Rust's
`saturating_sub` is `Nat` subtraction, which saturates at `0`.
-/

namespace View

/-! ## Tail selection (draw closure in `update`, src/main.rs lines 165-188)

The draw closure turns a pane's content into `lines`, sets
`amount = lines.len()`, and keeps
`lines.into_iter().skip(amount.saturating_sub(size.height as usize + 2)).take(size.height as usize)`.
`size.height` is the terminal height `H`. -/

/-- The visible slice computed by the draw closure for one pane:
`skip (N -' (H+2))` then `take H`, where `N` is the number of content lines
and `H = size.height`. `Nat` subtraction models `usize::saturating_sub`. -/
def tailSelect (lines : List String) (height : Nat) : List String :=
  (lines.drop (lines.length - (height + 2))).take height

/-- The slice the spec describes: the last `min N H` lines of the buffer. -/
def specTailSlice (lines : List String) (height : Nat) : List String :=
  lines.drop (lines.length - height)

/-! ## Shared display state (`struct State`, src/main.rs lines 50-56) -/

structure State where
  left_title : String
  left : String
  right_title : String
  right : String

/-- `left_thread`'s append (src/main.rs lines 92-93):
`lock.left.push_str(&line); lock.left.push('\n');`. Only the `left` field
is written. -/
def leftAppend (s : State) (line : String) : State :=
  { s with left := s.left ++ line ++ "\n" }

/-- `right_thread`'s append (src/main.rs lines 120-121):
`lock.right.push_str(&line); lock.right.push('\n');`. Only the `right`
field is written. -/
def rightAppend (s : State) (line : String) : State :=
  { s with right := s.right ++ line ++ "\n" }

/-- One append to a pane's content buffer: `push_str(&line)` followed by
`push('\n')`. -/
def appendLine (content line : String) : String :=
  content ++ line ++ "\n"

/-- A sequence of appends to the same pane's content, in arrival order
(appends to one pane are serialized by the mutex). -/
def appendLines (content : String) (ls : List String) : String :=
  ls.foldl appendLine content

/-- Number of line terminators in a buffer. -/
def newlineCount (s : String) : Nat :=
  s.data.count '\n'

/-! ## Events and the main loop of `update` (src/main.rs lines 58-61, 141-194) -/

/-- `enum Event { Exit, Draw }`. `Draw` is the "content updated" event,
`Exit` the "quit requested" event. -/
inductive Event where
  | Exit : Event
  | Draw : Event
deriving DecidableEq

/-- Outcome of `update`'s main loop within an observed horizon. -/
inductive UpdateOutcome where
  | running : UpdateOutcome
  | quit : UpdateOutcome
  | disconnected : UpdateOutcome
deriving DecidableEq

/-- What a run of `update`'s main loop did: how many `terminal.draw` calls
it made, how it left the loop, whether the join section after the loop was
reached, and which received results were never consumed. -/
structure LoopResult where
  draws : Nat
  outcome : UpdateOutcome
  joinsRun : Bool
  unconsumed : List (Except Unit Event)

/-- `update`'s main loop, one step per `rx.recv()` result, following the
`match` arms: `Ok(Event::Draw)` draws and continues; `Ok(Event::Exit)` is
`return Ok(())` — `update` returns at once and the join section after the
loop is never reached; `Err(_)` is `break 'outer`, which falls through to
the join section. The input list is the sequence of `recv` outcomes; an
empty list means the loop is still blocked in `recv`. -/
def updateLoop : List (Except Unit Event) → LoopResult
  | [] => ⟨0, UpdateOutcome.running, false, []⟩
  | Except.ok Event.Draw :: rest =>
      let r := updateLoop rest
      ⟨r.draws + 1, r.outcome, r.joinsRun, r.unconsumed⟩
  | Except.ok Event.Exit :: rest => ⟨0, UpdateOutcome.quit, false, rest⟩
  | Except.error _ :: rest => ⟨0, UpdateOutcome.disconnected, true, rest⟩

/-- Model of `mpsc::Receiver::recv`: the next buffered event if any is
pending; with an empty buffer it blocks (`none`) while at least one
`Sender` endpoint is alive, and yields `Err(RecvError)` only once every
`Sender` has been dropped. -/
def recv (pending : List Event) (senders : Nat) : Option (Except Unit Event) :=
  match pending with
  | e :: _ => some (Except.ok e)
  | [] => if senders = 0 then some (Except.error ()) else none

/-- Sender endpoints alive while `update`'s main loop runs: the clones moved
into still-running threads, plus one for the original `tx` bound at
src/main.rs line 65, which stays in `update`'s scope — never moved and never
dropped — until `update` returns, i.e. for the loop's entire duration. -/
def loopSenders (threadClonesAlive : Nat) : Nat :=
  threadClonesAlive + 1

/-! ## Reader threads (src/main.rs lines 75-98 and 103-126) -/

/-- One reader session over a child's merged output stream as decoded by
`BufReader::new(reader).lines()`: `while let Some(Ok(line)) = lines.next()`
consumes successfully decoded lines, appending each plus a terminator to
the accumulated content, and stops at end-of-stream (end of list) or at the
first decode error. Returns the content and the number of lines consumed
(= `Event::Draw` sends). -/
def readerSession : List (Except Unit String) → String → String × Nat
  | [], c => (c, 0)
  | Except.ok line :: rest, c =>
      let r := readerSession rest (appendLine c line)
      (r.1, r.2 + 1)
  | Except.error _ :: _, c => (c, 0)

/-- `left_thread`: its closure body is straight-line — it spawns its command
once, runs one reader session, and exits the thread. Returns the final
content and the number of times the command was spawned. -/
def leftThreadRun (stream : List (Except Unit String)) (c : String) :
    String × Nat :=
  ((readerSession stream c).1, 1)

/-- `right_thread`: its closure body is `loop { ... }` — after a session's
stream reaches end-of-stream, the `loop` re-executes its body and the
command is spawned again. `fuel` bounds how many loop iterations we observe
(when spawn, lock and send all succeed, the `loop` has no exit of its own);
`streams` is the decoded output of the k-th spawn. Returns the final
content and the number of spawns in the first `fuel` iterations. -/
def rightThreadRun : Nat → (Nat → List (Except Unit String)) → String →
    String × Nat
  | 0, _, c => (c, 0)
  | fuel + 1, streams, c =>
      let c1 := (readerSession (streams 0) c).1
      let r := rightThreadRun fuel (fun k => streams (k + 1)) c1
      (r.1, r.2 + 1)

/-! ## Lock/send ordering in a reader iteration (src/main.rs lines 88-97, 116-125) -/

/-- Primitive actions of a reader's loop body. -/
inductive Action where
  | acquire : Action
  | append : String → Action
  | send : Action
  | release : Action
deriving DecidableEq

/-- The actions of ONE iteration of a reader's `while` body, in program
order: `state.lock()` acquires the mutex; `push_str(&line)` and
`push('\n')` append the line plus terminator as one unit; `tx.send(...)`
posts `Event::Draw`; and the `MutexGuard` bound to `lock` is dropped —
releasing the mutex — only at the closing brace of the iteration's block,
which is AFTER the send. `left_thread` and `right_thread` are identical
here. -/
def readerIterActions (line : String) : List Action :=
  [Action.acquire, Action.append (line ++ "\n"), Action.send, Action.release]

/-- The action trace of a whole reader run over its decoded lines. -/
def readerActions (ls : List String) : List Action :=
  (ls.map readerIterActions).flatten

/-- Whether some send in the trace happens while the mutex is held (the
Boolean argument tracks whether the lock is currently held). -/
def sendWhileHeld : List Action → Bool → Bool
  | [], _ => false
  | Action.acquire :: r, _ => sendWhileHeld r true
  | Action.release :: r, _ => sendWhileHeld r false
  | Action.send :: r, held => held || sendWhileHeld r held
  | Action.append _ :: r, held => sendWhileHeld r held

/-- The strings appended by a trace, in order. -/
def appendsOf : List Action → List String
  | [] => []
  | Action.append s :: r => s :: appendsOf r
  | _ :: r => appendsOf r

/-- The trace acquires and releases the mutex in strict alternation and
ends with it released. -/
def lockBalanced : List Action → Bool → Bool
  | [], held => !held
  | Action.acquire :: r, held => !held && lockBalanced r true
  | Action.release :: r, held => held && lockBalanced r false
  | _ :: r, held => lockBalanced r held

/-- Appends that happen while the mutex is held. -/
def appendsWhileHeld : List Action → Bool → List String
  | [], _ => []
  | Action.acquire :: r, _ => appendsWhileHeld r true
  | Action.release :: r, _ => appendsWhileHeld r false
  | Action.append s :: r, held =>
      if held then s :: appendsWhileHeld r held else appendsWhileHeld r held
  | Action.send :: r, held => appendsWhileHeld r held

/-! ## `main` and the join section (src/main.rs lines 22-48, 196-207) -/

/-- The join section after `update`'s main loop: `left_thread.join()`,
`right_thread.join()`, `input_thread.join()`, each with
`.map_err(|_| anyhow!("Joining ... failed"))?`, so the first failing join
produces its message as `update`'s error result. -/
def joinSection (leftOk rightOk inputOk : Bool) : Except String Unit :=
  if !leftOk then Except.error "Joining left thread failed"
  else if !rightOk then Except.error "Joining right thread failed"
  else if !inputOk then Except.error "Joining input thread failed"
  else Except.ok ()

/-- Exit status determined by `fn main() -> Result<()>` under Rust's
`Termination`: returning `Err` exits nonzero, `Ok(())` exits `0`. -/
def exitCodeOf : Except String Unit → Nat
  | Except.ok _ => 0
  | Except.error _ => 1

/-- The argument check at the top of `main`
(`if std::env::args().skip(1).count() < 2 { bail!("view <left> <right>"); }`):
with fewer than two positional arguments `main` returns the usage error
BEFORE `enable_raw_mode()` is called; otherwise terminal setup proceeds.
Returns `main`'s early result and whether raw mode was entered. -/
def mainStartup (args : List String) : Except String Unit × Bool :=
  if args.length < 2 then (Except.error "view <left> <right>", false)
  else (Except.ok (), true)

/-- The tail of `main` after `update` returns, with terminal restoration
succeeding: `if let Err(error) = result { println!("{:?}", error) }` prints
the diagnostic, and `main` then falls through to `Ok(())`. Result:
(`main`'s return value, the printed diagnostic if any). -/
def mainTail (result : Except String Unit) :
    Except String Unit × Option String :=
  match result with
  | Except.error e => (Except.ok (), some e)
  | Except.ok _ => (Except.ok (), none)

/-- Order-preserving join of lines, each with its terminator: the buffer a
sequence of appends is expected to produce on top of the existing content. -/
def joinLines (ls : List String) : String :=
  ls.foldr (fun l acc => l ++ "\n" ++ acc) ""

/-- **C1, counterexample.** With a 3-line buffer `["a","b","c"]` and target
height `H = 1`, the code computes `skip (3 - 3) = skip 0` then `take 1`,
yielding the FIRST line `["a"]`, not the last `min 3 1 = 1` line `["c"]`
the claim requires. -/
theorem c1_counterexample :
    tailSelect ["a", "b", "c"] 1 ≠ specTailSlice ["a", "b", "c"] 1 := by
  decide

/-- **C1, amended.** The visible slice always has exactly `min N H` lines,
but it is NOT in general the last `min N H` lines: it is the last `min N H`
lines of the buffer with its final `min 2 (N - H)` lines removed. It equals
the spec's tail slice exactly when `N ≤ H`; otherwise it stops short of the
buffer's end by `min 2 (N - H)` lines. -/
theorem c1_amended (lines : List String) (H : Nat) :
    (tailSelect lines H).length = min lines.length H ∧
    tailSelect lines H =
      (lines.take (lines.length - min 2 (lines.length - H))).drop
        (lines.length - min 2 (lines.length - H) - H) := by
  constructor
  · simp only [tailSelect, List.length_take, List.length_drop]
    omega
  · rw [List.drop_take]
    rcases Nat.le_total lines.length H with h | h
    · have hm : min 2 (lines.length - H) = 0 := by omega
      have h0 : lines.length - min 2 (lines.length - H) - H = 0 := by omega
      have h1 : lines.length - (H + 2) = 0 := by omega
      have hl : tailSelect lines H = lines := by
        unfold tailSelect
        rw [h1, List.drop_zero, List.take_of_length_le h]
      rw [hl, h0, List.drop_zero, Nat.sub_zero, hm, Nat.sub_zero,
        List.take_length]
    · have he : lines.length - min 2 (lines.length - H) - H
          = lines.length - (H + 2) := by omega
      rw [he]
      have ht : lines.length - min 2 (lines.length - H)
          - (lines.length - (H + 2)) = H := by omega
      rw [ht]
      rfl

/-- **C2** (code defect). The left reader spawns its command exactly once
and exits at end-of-stream, but the right reader's closure body is
`loop { ... }`: after end-of-stream the loop re-executes and spawns the
command again. With the right command emitting the single line "world" per
run, two loop iterations spawn it twice and the pane content carries the
output twice; in general the spawn count equals the number of loop
iterations, i.e. it is unbounded — contradicting "no reader ever respawns
its command". -/
theorem c2_right_reader_respawns :
    (∀ stream c, (leftThreadRun stream c).2 = 1) ∧
    rightThreadRun 2 (fun _ => [Except.ok "world"]) ""
      = ("world\nworld\n", 2) ∧
    (∀ fuel streams c, (rightThreadRun fuel streams c).2 = fuel) := by
  refine ⟨fun _ _ => rfl, by decide, ?_⟩
  intro fuel
  induction fuel with
  | zero => intro streams c; rfl
  | succ n ih => intro streams c; simp [rightThreadRun, ih]

/-- **C3, counterexample.** In a run whose only received event is
`Ok(Event::Exit)`, the loop returns by quit, yet the join section is never
reached: the `Event::Exit` arm is `return Ok(())`, which exits `update`
directly, skipping the joins after the loop. -/
theorem c3_counterexample :
    ¬ ((updateLoop [Except.ok Event.Exit]).outcome = UpdateOutcome.quit →
      (updateLoop [Except.ok Event.Exit]).joinsRun = true) := by
  decide

/-- **C3, amended.** On receiving `QuitRequested`, `update` returns
immediately and joins NO spawned thread; the join section runs only on the
channel-disconnection (`Err`) exit path. -/
theorem c3_amended (rest : List (Except Unit Event)) :
    updateLoop (Except.ok Event.Exit :: rest)
      = ⟨0, UpdateOutcome.quit, false, rest⟩ ∧
    updateLoop (Except.error () :: rest)
      = ⟨0, UpdateOutcome.disconnected, true, rest⟩ :=
  ⟨rfl, rfl⟩

/-- **C4, counterexample.** When joining the left thread fails, `update`
returns the diagnostic "Joining left thread failed" and `main` prints it —
but `main` then returns `Ok(())`, so the process exit status is `0`: the
claim's non-zero exit status is refuted. -/
theorem c4_counterexample :
    ¬ (exitCodeOf (mainTail (joinSection false true true)).1 ≠ 0 ∧
      (mainTail (joinSection false true true)).2
        = some "Joining left thread failed") := by
  decide

/-- **C4, amended.** A shutdown join failure produces a printed diagnostic,
but the process exits with status `0`: `main` prints the error returned by
`update` and then falls through to `Ok(())`, so the failure is reflected in
the printed output only, never in the exit code. -/
theorem c4_amended (e : String) :
    mainTail (Except.error e) = (Except.ok (), some e) ∧
    exitCodeOf (mainTail (Except.error e)).1 = 0 ∧
    joinSection false true true = Except.error "Joining left thread failed" :=
  ⟨rfl, rfl, rfl⟩

/-- **C5, counterexample.** In the action trace of a reader iteration on
the line "hello", the send of `Event::Draw` happens while the mutex is
still held — the `MutexGuard` is dropped only at the end of the iteration's
block, after the send — refuting "a reader never sends on the Event Channel
while still holding the shared-state lock". -/
theorem c5_counterexample :
    sendWhileHeld (readerIterActions "hello") false = true :=
  rfl

/-- **C5, amended.** For each decoded line the reader acquires the lock,
appends the line plus terminator, posts `ContentUpdated` WHILE STILL
holding the lock, and releases the lock only at the end of the iteration,
after the send. The lock discipline is otherwise sound: acquires and
releases alternate strictly and the lock is never held across
iterations. -/
theorem c5_amended (line : String) (ls : List String) :
    sendWhileHeld (readerActions (line :: ls)) false = true ∧
    lockBalanced (readerActions ls) false = true := by
  constructor
  · rfl
  · induction ls with
    | nil => rfl
    | cons a t ih =>
        simpa [readerActions, readerIterActions, lockBalanced] using ih

/-- Helper: `newlineCount` distributes over string append. -/
theorem newlineCount_append (s t : String) :
    newlineCount (s ++ t) = newlineCount s + newlineCount t := by
  simp [newlineCount, String.data_append, List.count_append]

/-- Helper: a sequence of appends yields the old content followed by the
lines, each with its terminator, in order. -/
theorem appendLines_eq_joinLines (ls : List String) (c : String) :
    appendLines c ls = c ++ joinLines ls := by
  induction ls generalizing c with
  | nil => simp [appendLines, joinLines]
  | cons a t ih =>
      have step : appendLines c (a :: t) = appendLines (appendLine c a) t := rfl
      rw [step, ih, appendLine]
      simp [joinLines, String.append_assoc]

/-- Helper: appending lines free of `'\n'` adds exactly one terminator per
line. -/
theorem newlineCount_appendLines (c : String) (ls : List String)
    (h : ∀ l ∈ ls, Char.ofNat 10 ∉ l.data) :
    newlineCount (appendLines c ls) = newlineCount c + ls.length := by
  induction ls generalizing c with
  | nil => simp [appendLines]
  | cons a t ih =>
      have ha : newlineCount a = 0 :=
        List.count_eq_zero.mpr (h a (List.mem_cons_self a t))
      have step : appendLines c (a :: t) = appendLines (appendLine c a) t := rfl
      rw [step, ih _ (fun l hl => h l (List.mem_cons_of_mem a hl)), appendLine,
        newlineCount_append, newlineCount_append, ha]
      have h1 : newlineCount "\n" = 1 := rfl
      rw [h1]
      simp [List.length_cons]
      omega

/-- Helper: in a reader's trace, each line is appended as one unit — line
plus terminator — while the lock is held, in arrival order. -/
theorem appendsWhileHeld_readerActions (ls : List String) :
    appendsWhileHeld (readerActions ls) false
      = ls.map (fun l => l ++ "\n") := by
  induction ls with
  | nil => rfl
  | cons a t ih =>
      simpa [readerActions, readerIterActions, appendsWhileHeld] using ih

/-- **C7.** For any sequence of decoded lines (line decoding splits on
`'\n'`, so a decoded line never contains one), the number of line
terminators in the buffer grows by exactly the number of appended lines,
the buffer becomes the previous content followed by the lines each with
its terminator in arrival order, and each line plus terminator is appended
as one unit while the lock is held. -/
theorem c7_append_invariant (c : String) (ls : List String)
    (h : ∀ l ∈ ls, Char.ofNat 10 ∉ l.data) :
    newlineCount (appendLines c ls) = newlineCount c + ls.length ∧
    appendLines c ls = c ++ joinLines ls ∧
    appendsWhileHeld (readerActions ls) false
      = ls.map (fun l => l ++ "\n") :=
  ⟨newlineCount_appendLines c ls h, appendLines_eq_joinLines ls c,
    appendsWhileHeld_readerActions ls⟩

/-- **C7, witness.** The invariant evaluated on the concrete append
sequence `["hello", "world"]` over an empty buffer. -/
theorem c7_witness :
    (∀ l ∈ ["hello", "world"], Char.ofNat 10 ∉ l.data) ∧
    (newlineCount (appendLines "" ["hello", "world"])
        = newlineCount "" + ["hello", "world"].length ∧
      appendLines "" ["hello", "world"] = "" ++ joinLines ["hello", "world"] ∧
      appendsWhileHeld (readerActions ["hello", "world"]) false
        = ["hello", "world"].map (fun l => l ++ "\n")) :=
  ⟨by decide, c7_append_invariant "" ["hello", "world"] (by decide)⟩

/-- **C6.** After `n` `ContentUpdated` events have each triggered a draw,
receiving `QuitRequested` makes the loop return at once with exactly `n`
draws performed in total — and everything still in the channel after the
quit event is left unconsumed, never processed. -/
theorem c6_quit_stops_processing (n : Nat) (post : List (Except Unit Event)) :
    updateLoop (List.replicate n (Except.ok Event.Draw)
        ++ Except.ok Event.Exit :: post)
      = ⟨n, UpdateOutcome.quit, false, post⟩ := by
  induction n with
  | zero => rfl
  | succ k ih => simp [List.replicate_succ, updateLoop, ih]

/-- **C8.** Appending a line to the left pane leaves the right pane's
content and both titles unchanged, and appending to the right pane leaves
the left pane's content and both titles unchanged: each reader writes only
its own pane's content field, and nothing after startup writes a title. -/
theorem c8_pane_independence (s : State) (line : String) :
    (leftAppend s line).right = s.right ∧
    (leftAppend s line).left_title = s.left_title ∧
    (leftAppend s line).right_title = s.right_title ∧
    (rightAppend s line).left = s.left ∧
    (rightAppend s line).left_title = s.left_title ∧
    (rightAppend s line).right_title = s.right_title :=
  ⟨rfl, rfl, rfl, rfl, rfl, rfl⟩

/-- **C9.** With fewer than two positional arguments, `main` bails with
exactly the usage message `view <left> <right>` before `enable_raw_mode()`
is ever reached — so no terminal mode change is made — and the `Err`
return gives the process a nonzero exit status. -/
theorem c9_usage_error (args : List String) (h : args.length < 2) :
    mainStartup args = (Except.error "view <left> <right>", false) ∧
    exitCodeOf (mainStartup args).1 = 1 := by
  constructor
  · simp [mainStartup, h]
  · simp [mainStartup, h, exitCodeOf]

/-- **C9, witness.** The usage failure evaluated on the concrete one-argument
invocation `view "echo hello"`. -/
theorem c9_witness :
    [ "echo hello" ].length < 2 ∧
    (mainStartup ["echo hello"] = (Except.error "view <left> <right>", false) ∧
      exitCodeOf (mainStartup ["echo hello"]).1 = 1) :=
  ⟨by decide, c9_usage_error ["echo hello"] (by decide)⟩

/-- **C10.** `recv` yields `Err(RecvError)` only once every sender is
dropped; `update` keeps its original `tx` in scope for the loop's whole
duration, so at least one sender is always alive and disconnection is never
observed. Every received result is therefore `Ok(..)`, under which the
`Err` branch — and the join section it leads to — is unreachable, and the
loop leaves the running state exactly when a `QuitRequested` event is
received. -/
theorem c10_disconnection_unreachable :
    (∀ pending clones,
      recv pending (loopSenders clones) ≠ some (Except.error ())) ∧
    (∀ es : List Event,
      (updateLoop (es.map Except.ok)).outcome ≠ UpdateOutcome.disconnected ∧
      (updateLoop (es.map Except.ok)).joinsRun = false ∧
      ((updateLoop (es.map Except.ok)).outcome = UpdateOutcome.quit ↔
        Event.Exit ∈ es)) := by
  refine ⟨?_, ?_⟩
  · intro pending clones
    cases pending with
    | nil => simp [recv, loopSenders]
    | cons e r => simp [recv]
  · intro es
    induction es with
    | nil => exact ⟨by simp [updateLoop], rfl, by simp [updateLoop]⟩
    | cons e t ih =>
        cases e with
        | Exit => exact ⟨by simp [updateLoop], rfl, by simp [updateLoop]⟩
        | Draw =>
            refine ⟨?_, ?_, ?_⟩
            · simpa [updateLoop] using ih.1
            · simpa [updateLoop] using ih.2.1
            · simpa [updateLoop] using ih.2.2

/-- **C10, witness.** Concrete instances: with the retained `tx` and no
thread clones left, `recv` on an empty buffer does not report
disconnection; and a run receiving one `ContentUpdated` event neither
observes disconnection nor reaches the join section. -/
theorem c10_witness :
    recv [] (loopSenders 0) ≠ some (Except.error ()) ∧
    (updateLoop ([Event.Draw].map Except.ok)).outcome
      ≠ UpdateOutcome.disconnected ∧
    (updateLoop ([Event.Draw].map Except.ok)).joinsRun = false :=
  ⟨c10_disconnection_unreachable.1 [] 0,
    (c10_disconnection_unreachable.2 [Event.Draw]).1,
    (c10_disconnection_unreachable.2 [Event.Draw]).2.1⟩

end View
